import Mathlib

/-!
Verification of the session/capture core of the objex demo server.

The development shallowly embeds the JavaScript source:
* `src/models/SessionData.js` (sessiondata.js): the encrypted capture store —
  `encrypt`, `decrypt`, `createSession`, `captureData`, `getSessionData`,
  `markAsSent`, `endSession`, `cleanupExpired`;
* `src/middleware/auth.js`: `validateMOCredentials`, `requireAuth`,
  `checkConcurrentSessions`, the `MO_USERS` table and the `activeSessions` map;
* `src/routes/auth.js` (route.js): the login and logout route handlers.

Conventions of the embedding:
* timestamps (`Date.now()`, sqlite datetimes) are naturals counting milliseconds;
* plaintexts (phone numbers, safety codes) are byte lists (`List Nat`);
* the node `crypto` AES-256-GCM primitive is modelled at its interface:
  a keystream cipher (XOR of a key/nonce-derived stream) plus an
  authentication tag that is injective in the ciphertext, so that
  decryption succeeds exactly on untampered envelopes — the contract the
  source relies on ("aes-256-gcm" with `getAuthTag`/`setAuthTag`);
* the bcrypt comparison is an abstract boolean parameter (the stored hashes
  in the source are placeholder literals);
* JavaScript truthiness tests on timestamp fields (`if (session.lastActivity)`)
  are modelled on `Option Nat` with `0` falsy, exactly as in the source;
* callback success/failure of an operation is the function's returned value;
  a thrown exception aborting a callback is the error of an `Except`.
-/

/-! ## Modelled AES-256-GCM primitive (node `crypto` interface) -/

/-- Ciphertext envelope, mirroring the `iv:authTag:ciphertext` string built by
`SessionData.encrypt`. -/
structure Envelope where
  iv : Nat
  tag : Nat
  ct : List Nat
deriving DecidableEq, Repr

/-- Keystream byte at position `i` for key `key` and nonce `iv`
(models the AES-CTR stream inside GCM). -/
def ksByte (key iv i : Nat) : Nat :=
  key + 131 * iv + 17 * i

/-- XOR a byte list against the keystream starting at position `i`.
Applying it twice with the same key and nonce is the identity, as for the
real CTR stream. -/
def xorStream (key iv : Nat) : Nat → List Nat → List Nat
  | _, [] => []
  | i, b :: rest => (b ^^^ ksByte key iv i) :: xorStream key iv (i + 1) rest

/-- Base-256 accumulator over a byte list, seeded with 1; injective in any
single position change. Used as the core of the modelled GHASH tag. -/
def base256 (ct : List Nat) : Nat :=
  ct.foldl (fun a b => 256 * a + b) 1

/-- Modelled authentication tag of AES-256-GCM: a value determined by key,
nonce and ciphertext, distinct for distinct ciphertexts. -/
def tagOf (key iv : Nat) (ct : List Nat) : Nat :=
  key + 7 * iv + base256 ct

/-- Model of `SessionData.encrypt`: fresh-nonce authenticated encryption producing the
`{iv, tag, ct}` envelope. The caller supplies the random nonce `iv`
(`crypto.randomBytes(16)` in the source). -/
def encryptE (key iv : Nat) (text : List Nat) : Envelope :=
  let ct := xorStream key iv 0 text
  { iv := iv, tag := tagOf key iv ct, ct := ct }

/-- Model of `SessionData.decrypt`: verifies the authentication tag and inverts the
keystream; `none` models the exception thrown by `decipher.final` when GCM
authentication fails. -/
def decryptE (key : Nat) (e : Envelope) : Option (List Nat) :=
  if e.tag = tagOf key e.iv e.ct then some (xorStream key e.iv 0 e.ct) else none

/-! ## Capture store (`SessionData.js`) -/

/-- Row of the `capture_sessions` table. -/
structure CaptureSessionRow where
  session_id : String
  mo_username : String
  created_at : Nat
  expires_at : Nat
  status : String
deriving DecidableEq, Repr

/-- Row of the `captured_data` table. -/
structure CapturedRow where
  id : Nat
  session_id : String
  encrypted_phone : Envelope
  encrypted_safety_code : Envelope
  created_at : Nat
  status : String
deriving DecidableEq, Repr

/-- The capture store: the two sqlite tables and the AUTOINCREMENT counter. -/
structure CaptureStore where
  sessions : List CaptureSessionRow
  records : List CapturedRow
  nextId : Nat
deriving DecidableEq, Repr

/-- Model of `SessionData.createSession`: inserts a `capture_sessions` row with
`expires_at = now + 30 minutes`; the UNIQUE constraint on `session_id`
makes the insert fail when the id already exists. -/
def createSession (st : CaptureStore) (sid user : String) (now : Nat) :
    Except Unit CaptureStore :=
  if st.sessions.any (fun cs => decide (cs.session_id = sid)) then
    .error ()
  else
    .ok { st with
          sessions := st.sessions ++
            [{ session_id := sid, mo_username := user, created_at := now,
               expires_at := now + 30 * 60 * 1000, status := "active" }] }

/-- Model of `SessionData.captureData`: encrypts phone and code independently (each
with its own fresh nonce) and inserts a `captured_data` row with status
`new`. The source performs no existence check on `sessionId` and sqlite
does not enforce the declared foreign key (no `PRAGMA foreign_keys`), so
the insert succeeds unconditionally. -/
def captureData (key : Nat) (st : CaptureStore) (iv1 iv2 : Nat)
    (sid : String) (phone code : List Nat) (now : Nat) : CaptureStore :=
  { st with
    records := st.records ++
      [{ id := st.nextId, session_id := sid,
         encrypted_phone := encryptE key iv1 phone,
         encrypted_safety_code := encryptE key iv2 code,
         created_at := now, status := "new" }],
    nextId := st.nextId + 1 }

/-- The join condition of `getSessionData`: a live `capture_sessions` row for
`sid` owned by `user` with `expires_at > now`. -/
def liveB (st : CaptureStore) (sid user : String) (now : Nat) : Bool :=
  st.sessions.any (fun cs =>
    decide (cs.session_id = sid) && decide (cs.mo_username = user) &&
    decide (now < cs.expires_at))

/-- The rows matched by the `getSessionData` query: `captured_data` rows of
`sid` with status `new`, joined against a live owning `capture_sessions`
row. -/
def matchedRows (st : CaptureStore) (sid user : String) (now : Nat) :
    List CapturedRow :=
  st.records.filter (fun r =>
    decide (r.session_id = sid) && liveB st sid user now &&
    decide (r.status = "new"))

/-- A row of `getSessionData`'s decrypted result. -/
structure DecRow where
  id : Nat
  phoneNumber : List Nat
  safetyCode : List Nat
  createdAt : Nat
deriving DecidableEq, Repr

/-- Decryption of one matched row, as in the `rows.map` of
`getSessionData`. -/
def decryptRow (key : Nat) (r : CapturedRow) : Option DecRow :=
  match decryptE key r.encrypted_phone, decryptE key r.encrypted_safety_code with
  | some p, some c => some { id := r.id, phoneNumber := p, safetyCode := c,
                             createdAt := r.created_at }
  | _, _ => none

/-- Decryption of a whole row list; any failing row aborts the whole map,
as the exception thrown inside `rows.map` does in the source. -/
def decryptRows (key : Nat) : List CapturedRow → Option (List DecRow)
  | [] => some []
  | r :: rs =>
    match decryptRow key r, decryptRows key rs with
    | some d, some ds => some (d :: ds)
    | _, _ => none

/-- Failure of a capture-store read. -/
inductive StoreFailure
  | integrityFailure
deriving DecidableEq, Repr

/-- Model of `SessionData.getSessionData`: selects the matched rows and decrypts them
all; a decryption/authentication failure on any matched row aborts the
whole read. -/
def getSessionData (key : Nat) (st : CaptureStore) (sid user : String)
    (now : Nat) : Except StoreFailure (List DecRow) :=
  match decryptRows key (matchedRows st sid user now) with
  | some l => .ok l
  | none => .error .integrityFailure

/-- Model of `SessionData.markAsSent`: re-encrypts the phone with a fresh nonce and
updates the rows of `sid` whose stored `encrypted_phone` equals that fresh
ciphertext, returning the number of changed rows (`this.changes`). -/
def markAsSent (key : Nat) (st : CaptureStore) (freshIv : Nat)
    (sid : String) (phone : List Nat) : CaptureStore × Nat :=
  let enc := encryptE key freshIv phone
  let hit := fun (r : CapturedRow) =>
    decide (r.session_id = sid) && decide (r.encrypted_phone = enc)
  ({ st with
     records := st.records.map (fun r =>
       if hit r then { r with status := "sent" } else r) },
   (st.records.filter hit).length)

/-- Model of `SessionData.endSession`: deletes all `captured_data` rows of `sid`, then
the `capture_sessions` row, before resolving. -/
def endSession (st : CaptureStore) (sid : String) : CaptureStore :=
  { st with
    records := st.records.filter (fun r => decide (r.session_id ≠ sid)),
    sessions := st.sessions.filter (fun cs => decide (cs.session_id ≠ sid)) }

/-- Model of `SessionData.cleanupExpired`: deletes every `captured_data` row whose
session is expired, and every expired `capture_sessions` row. -/
def cleanupExpired (st : CaptureStore) (now : Nat) : CaptureStore :=
  { st with
    records := st.records.filter (fun r =>
      !(st.sessions.any (fun cs =>
        decide (cs.session_id = r.session_id) && decide (cs.expires_at < now)))),
    sessions := st.sessions.filter (fun cs => !(decide (cs.expires_at < now))) }

/-! ## Session guard (`auth.js`) -/

/-- The `moUser` claims object set on the express session at login. -/
structure MOUserClaims where
  username : String
  role : String
  sessionStart : Nat
deriving DecidableEq, Repr

/-- The express session object, with the fields the source reads and writes.
`none` models an absent property. -/
structure GuardSession where
  moUser : Option MOUserClaims
  demoSessionId : Option String
  lastActivity : Option Nat
  lastRegenerated : Option Nat
deriving DecidableEq, Repr

/-- The express session store, keyed by session identifier. -/
abbrev GuardStore := List (String × GuardSession)

/-- Lookup of a session by identifier. -/
def slookup : GuardStore → String → Option GuardSession
  | [], _ => none
  | p :: rest, k => if p.1 = k then some p.2 else slookup rest k

/-- Removal of a session (`req.session.destroy`, and the destroy half of
`req.session.regenerate`). -/
def sremove : GuardStore → String → GuardStore
  | [], _ => []
  | p :: rest, k => if p.1 = k then sremove rest k else p :: sremove rest k

/-- Insertion (or replacement) of a session under an identifier. -/
def sinsert (st : GuardStore) (k : String) (v : GuardSession) : GuardStore :=
  (k, v) :: sremove st k

/-- JavaScript truthiness of an optional numeric property: absent and `0`
are falsy. -/
def truthyN : Option Nat → Bool
  | none => false
  | some n => decide (n ≠ 0)

/-- Outcome of the `requireAuth` middleware on one request. -/
inductive GuardResult
  | authRequired
  | sessionExpired
  | proceed
deriving DecidableEq, Repr

/-- Result of a guarded request: the middleware outcome, the session store
afterwards, and the request's effective session identifier (`req.sessionID`,
which changes when the middleware regenerates the session). -/
structure GuardOut where
  res : GuardResult
  store : GuardStore
  sid : String
deriving DecidableEq, Repr

/-- The 30-minute idle threshold of `requireAuth` (`MAX_IDLE`). -/
def MAX_IDLE : Nat := 30 * 60 * 1000

/-- The 15-minute regeneration interval of `requireAuth`. -/
def REGEN_MS : Nat := 15 * 60 * 1000

/-- The `requireAuth` middleware of `auth.js`:
no session or no `moUser` fails with `AUTH_REQUIRED`; a truthy
`lastActivity` older than 30 minutes destroys the session and fails with
`SESSION_EXPIRED`; otherwise `lastActivity` is set to `now` and, when
`lastRegenerated` is falsy or older than 15 minutes, the session is
regenerated under the fresh identifier (claims copied, then
`lastRegenerated = now`) and the request proceeds. -/
def requireAuth (st : GuardStore) (sid : String) (now : Nat)
    (fresh : String) : GuardOut :=
  match slookup st sid with
  | none => { res := .authRequired, store := st, sid := sid }
  | some s =>
    if s.moUser.isNone then
      { res := .authRequired, store := st, sid := sid }
    else if truthyN s.lastActivity
        && decide (MAX_IDLE < now - s.lastActivity.getD 0) then
      { res := .sessionExpired, store := sremove st sid, sid := sid }
    else
      let s1 := { s with lastActivity := some now }
      if !truthyN s1.lastRegenerated
          || decide (REGEN_MS < now - s1.lastRegenerated.getD 0) then
        { res := .proceed,
          store := sinsert (sremove st sid) fresh
            { s1 with lastRegenerated := some now },
          sid := fresh }
      else
        { res := .proceed, store := sinsert st sid s1, sid := sid }

/-! ## Credential validator and admission controller (`auth.js`) -/

/-- A row of the hardcoded `MO_USERS` table. -/
structure MOUser where
  username : String
  passwordHash : String
  role : String
  allowedSessions : Nat
deriving DecidableEq, Repr

/-- The `MO_USERS` table of `auth.js`, placeholder hashes included. -/
def MO_USERS : List MOUser :=
  [ { username := "demo.admin", passwordHash := "$2b$10$YourHashedPasswordHere",
      role := "admin", allowedSessions := 5 },
    { username := "demo.operator", passwordHash := "$2b$10$YourHashedPasswordHere",
      role := "operator", allowedSessions := 3 } ]

/-- Model of `validateMOCredentials`, instrumented with the number of bcrypt
comparison passes performed: an unknown username returns `null` before any
comparison; a known username performs exactly one `bcrypt.compare`. The
comparison itself is the abstract parameter `compare`. -/
def validateMOCredentials (compare : String → String → Bool)
    (username password : String) : Option MOUser × Nat :=
  match MO_USERS.find? (fun u => decide (u.username = username)) with
  | none => (none, 0)
  | some u => (if compare password u.passwordHash then some u else none, 1)

/-- An entry of the in-memory `activeSessions` map. -/
structure ActiveEntry where
  username : String
  sessionId : String
  startedAt : Nat
deriving DecidableEq, Repr

/-- The `activeSessions` map, keyed by session identifier. -/
abbrev ActiveMap := List (String × ActiveEntry)

/-- Removal from the `activeSessions` map. -/
def aremove : ActiveMap → String → ActiveMap
  | [], _ => []
  | p :: rest, k => if p.1 = k then aremove rest k else p :: aremove rest k

/-- Outcome of the `checkConcurrentSessions` middleware. -/
inductive AdmitResult
  | maxSessions
  | proceed
deriving DecidableEq, Repr

/-- The `checkConcurrentSessions` middleware of `auth.js`: counts the
`activeSessions` entries of the caller's username under other session ids,
denies with `MAX_SESSIONS` at the `allowedSessions` bound, and otherwise
registers the current session. Exported by `auth.js` but mounted on no
route in the repository. -/
def checkConcurrentSessions (act : ActiveMap) (st : GuardStore)
    (sid : String) (now : Nat) : AdmitResult × ActiveMap :=
  match (slookup st sid).bind (fun s => s.moUser) with
  | none => (.proceed, act)
  | some mu =>
    let userSessions := act.filter (fun p =>
      decide (p.2.username = mu.username) && decide (p.2.sessionId ≠ sid))
    let deny :=
      match MO_USERS.find? (fun u => decide (u.username = mu.username)) with
      | some u => decide (u.allowedSessions ≤ userSessions.length)
      | none => false
    if deny then (.maxSessions, act)
    else (.proceed,
      (sid, { username := mu.username, sessionId := sid, startedAt := now })
        :: aremove act sid)

/-! ## Login and logout routes (`routes/auth.js`) -/

/-- Response of the login route. -/
inductive LoginResp
  | authFailed
  | maxSessions
  | success (username role : String)
  | sessionError
deriving DecidableEq, Repr

/-- The state after a login request. -/
structure LoginOut where
  resp : LoginResp
  guard : GuardStore
  capture : CaptureStore
  act : ActiveMap
deriving DecidableEq, Repr

/-- The login handler of `routes/auth.js` (after the upstream rate limiter
and body validation): validate credentials, regenerate the session under a
fresh identifier, create the capture-store session for the new
`req.sessionID`, and set the session claims. The middleware chain is
`rateLimiter.login, loginValidation, handler` — it contains no concurrent-
session admission step, and the `activeSessions` map is left untouched. -/
def loginRoute (compare : String → String → Bool) (gs : GuardStore)
    (cs : CaptureStore) (act : ActiveMap) (sid fresh : String)
    (username password : String) (now : Nat) : LoginOut :=
  match (validateMOCredentials compare username password).1 with
  | none => { resp := .authFailed, guard := gs, capture := cs, act := act }
  | some u =>
    match createSession cs fresh username now with
    | .error _ =>
      { resp := .sessionError, guard := sremove gs sid, capture := cs, act := act }
    | .ok cs1 =>
      let s : GuardSession :=
        { moUser := some { username := u.username, role := u.role,
                           sessionStart := now },
          demoSessionId := some fresh,
          lastActivity := some now,
          lastRegenerated := some now }
      { resp := .success u.username u.role,
        guard := sinsert (sremove gs sid) fresh s,
        capture := cs1, act := act }

/-- Response of the logout route. -/
inductive LogoutResp
  | authRequired
  | sessionExpired
  | success
  | serverError
deriving DecidableEq, Repr

/-- The state after a logout request. -/
structure LogoutOut where
  resp : LogoutResp
  capture : CaptureStore
  guard : GuardStore
  act : ActiveMap
deriving DecidableEq, Repr

/-- The logout route of `routes/auth.js`: it runs behind `requireAuth`; on
`proceed` it purges the bound capture-store session (`endSession`), removes
the `activeSessions` entry of the current `req.sessionID`, destroys the
express session and reports success. When `requireAuth` fails, the handler
never runs and the capture store is left untouched. -/
def logoutRoute (cs : CaptureStore) (gs : GuardStore) (act : ActiveMap)
    (sid : String) (now : Nat) (fresh : String) : LogoutOut :=
  let o := requireAuth gs sid now fresh
  match o.res with
  | .authRequired =>
    { resp := .authRequired, capture := cs, guard := o.store, act := act }
  | .sessionExpired =>
    { resp := .sessionExpired, capture := cs, guard := o.store, act := act }
  | .proceed =>
    match slookup o.store o.sid with
    | none =>
      { resp := .serverError, capture := cs, guard := o.store, act := act }
    | some s =>
      let cs1 := match s.demoSessionId with
                 | some d => endSession cs d
                 | none => cs
      { resp := .success, capture := cs1,
        guard := sremove o.store o.sid, act := aremove act o.sid }

/-! ## Helper lemmas: the session store -/

/-- Lookup after removal: the removed key is gone, others unchanged. -/
theorem slookup_sremove (st : GuardStore) (k k1 : String) :
    slookup (sremove st k) k1 = if k1 = k then none else slookup st k1 := by
  induction st with
  | nil => simp [sremove, slookup]
  | cons p rest ih =>
    by_cases h1 : p.1 = k
    · rw [show sremove (p :: rest) k = sremove rest k from by simp [sremove, h1], ih]
      by_cases h2 : k1 = k
      · simp [h2]
      · have hp : ¬ p.1 = k1 := fun hx => h2 (hx.symm.trans h1)
        rw [if_neg h2, if_neg h2]
        simp [slookup, hp]
    · rw [show sremove (p :: rest) k = p :: sremove rest k from by simp [sremove, h1]]
      by_cases h3 : p.1 = k1
      · have h4 : ¬ k1 = k := fun hx => h1 (h3.trans hx)
        simp [slookup, h3, h4]
      · simp [slookup, h3, ih]

/-- Lookup after insertion: the inserted key maps to the new value, others
unchanged. -/
theorem slookup_sinsert (st : GuardStore) (k : String) (v : GuardSession)
    (k1 : String) :
    slookup (sinsert st k v) k1 = if k1 = k then some v else slookup st k1 := by
  simp only [sinsert, slookup]
  by_cases h : k = k1
  · simp [h]
  · have h2 : ¬ k1 = k := fun hx => h hx.symm
    simp [h, h2, slookup_sremove]

/-- A request presenting an identifier absent from the store fails with
`AUTH_REQUIRED`. -/
theorem requireAuth_absent (t : GuardStore) (sid : String) (now : Nat)
    (f : String) (h : slookup t sid = none) :
    requireAuth t sid now f = { res := .authRequired, store := t, sid := sid } := by
  simp [requireAuth, h]

/-- No guarded request on any other identifier can revive an absent
identifier, as long as the freshly allocated identifier differs from it. -/
theorem requireAuth_preserves_absent (t : GuardStore) (sid sid2 : String)
    (now2 : Nat) (f2 : String) (h : slookup t sid = none) (hf : f2 ≠ sid) :
    slookup (requireAuth t sid2 now2 f2).store sid = none := by
  by_cases hss : sid = sid2
  · subst hss
    simp [requireAuth, h]
  · cases hlu : slookup t sid2 with
    | none => simp [requireAuth, hlu, h]
    | some s =>
      simp only [requireAuth, hlu]
      cases hmo : s.moUser.isNone with
      | true => simp [h]
      | false =>
        simp only [Bool.false_eq_true, if_false]
        cases hid : truthyN s.lastActivity
            && decide (MAX_IDLE < now2 - s.lastActivity.getD 0) with
        | true =>
          simp only [if_true]
          rw [slookup_sremove]
          simp [hss, h]
        | false =>
          simp only [Bool.false_eq_true, if_false]
          cases hrot : !truthyN s.lastRegenerated
              || decide (REGEN_MS < now2 - s.lastRegenerated.getD 0) with
          | true =>
            simp only [if_true]
            rw [slookup_sinsert]
            have : ¬ sid = f2 := fun hk => hf hk.symm
            rw [if_neg this, slookup_sremove, if_neg hss]
            exact h
          | false =>
            simp only [Bool.false_eq_true, if_false]
            rw [slookup_sinsert, if_neg hss]
            exact h

/-! ## Helper lemmas: the modelled cipher -/

/-- The keystream XOR is an involution, positionwise. -/
theorem xorStream_xorStream (key iv : Nat) :
    ∀ (i : Nat) (m : List Nat), xorStream key iv i (xorStream key iv i m) = m := by
  intro i m
  induction m generalizing i with
  | nil => simp [xorStream]
  | cons b rest ih =>
    simp [xorStream, ih, Nat.xor_cancel_right]

/-- Decryption inverts encryption: the recorded tag verifies and the
keystream XOR cancels. -/
theorem decryptE_encryptE (key iv : Nat) (m : List Nat) :
    decryptE key (encryptE key iv m) = some m := by
  simp [decryptE, encryptE, xorStream_xorStream]

/-- The base-256 accumulator is strictly monotone in its seed. -/
theorem base256_foldl_mono (l : List Nat) :
    ∀ a b : Nat, a < b →
      l.foldl (fun a b => 256 * a + b) a < l.foldl (fun a b => 256 * a + b) b := by
  induction l with
  | nil => intro a b h; simpa using h
  | cons c rest ih =>
    intro a b h
    simp only [List.foldl_cons]
    exact ih (256 * a + c) (256 * b + c) (by omega)

/-- The base-256 accumulator is injective in its seed. -/
theorem base256_foldl_inj (l : List Nat) (a b : Nat) (h : a ≠ b) :
    l.foldl (fun a b => 256 * a + b) a ≠ l.foldl (fun a b => 256 * a + b) b := by
  rcases Nat.lt_or_ge a b with h1 | h1
  · exact Nat.ne_of_lt (base256_foldl_mono l a b h1)
  · have h2 : b < a := Nat.lt_of_le_of_ne h1 (Ne.symm h)
    exact (Nat.ne_of_lt (base256_foldl_mono l b a h2)).symm

/-- Changing any single position of a byte list changes its base-256
accumulation, whatever the seed. -/
theorem base256_foldl_set_ne (l : List Nat) :
    ∀ (i : Nat) (v a : Nat) (h : i < l.length), v ≠ l.get ⟨i, h⟩ →
      (l.set i v).foldl (fun a b => 256 * a + b) a ≠
        l.foldl (fun a b => 256 * a + b) a := by
  induction l with
  | nil => intro i v a h; simp at h
  | cons c rest ih =>
    intro i v a h hv
    cases i with
    | zero =>
      simp only [List.set_cons_zero, List.foldl_cons]
      have hvc : v ≠ c := by simpa using hv
      exact base256_foldl_inj rest (256 * a + v) (256 * a + c) (by omega)
    | succ j =>
      simp only [List.set_cons_succ, List.foldl_cons]
      have hj : j < rest.length := by simpa using h
      have hv2 : v ≠ rest.get ⟨j, hj⟩ := by simpa using hv
      exact ih j v (256 * a + c) hj hv2

/-- A wrong tag is rejected by `decrypt`. -/
theorem decryptE_wrong_tag (key : Nat) (e : Envelope)
    (h : e.tag ≠ tagOf key e.iv e.ct) : decryptE key e = none := by
  simp [decryptE, h]

/-! ## Helper lemmas: row decryption -/

/-- Decrypting an appended row list splits into the two halves, both of
which must succeed. -/
theorem decryptRows_append (key : Nat) (l1 l2 : List CapturedRow) :
    decryptRows key (l1 ++ l2) =
      (decryptRows key l1).bind (fun a =>
        (decryptRows key l2).map (fun b => a ++ b)) := by
  induction l1 with
  | nil =>
    cases h : decryptRows key l2 <;> simp [decryptRows, h]
  | cons r rest ih =>
    simp only [List.cons_append, decryptRows]
    rw [show rest.append l2 = rest ++ l2 from rfl, ih]
    cases h1 : decryptRow key r <;>
      cases h2 : decryptRows key rest <;>
        cases h3 : decryptRows key l2 <;>
          simp [h1, h2, h3]

/-- One failing row aborts the decryption of the whole list. -/
theorem decryptRows_none_of_mem (key : Nat) {r : CapturedRow}
    {l : List CapturedRow} (hr : r ∈ l) (hnone : decryptRow key r = none) :
    decryptRows key l = none := by
  induction l with
  | nil => simp at hr
  | cons x rest ih =>
    rcases List.mem_cons.mp hr with h | h
    · subst h
      simp [decryptRows, hnone]
    · cases h1 : decryptRow key x <;> simp [decryptRows, h1, ih h]

/-! ## Concrete scenarios used by the claim theorems -/

/-- Example encryption key (the process-wide `ENCRYPTION_KEY`). -/
def exKey : Nat := 42

/-- Example phone plaintext, as bytes. -/
def exPhone : List Nat := [49, 53, 53, 53]

/-- Example safety-code plaintext, as bytes. -/
def exCode : List Nat := [65, 66, 67]

/-- A capture store holding one live session `s1` of `demo.admin` with one
`new` record whose phone ciphertext was produced with nonce 3. -/
def exStore : CaptureStore :=
  { sessions := [{ session_id := "s1", mo_username := "demo.admin",
                   created_at := 0, expires_at := 1800000, status := "active" }],
    records := [{ id := 1, session_id := "s1",
                  encrypted_phone := encryptE exKey 3 exPhone,
                  encrypted_safety_code := encryptE exKey 4 exCode,
                  created_at := 0, status := "new" }],
    nextId := 2 }

/-- A capture store with no `capture_sessions` row at all. -/
def emptyStore : CaptureStore := { sessions := [], records := [], nextId := 1 }

/-! ## C1 — `markSent` matching discipline -/

/-- C1: the claim fails on the code. `markAsSent` re-encrypts the phone with
a fresh random nonce and matches rows by ciphertext equality in the SQL
`WHERE` clause, not by decrypt-and-compare. The store holds a `new` record
of session `s1` whose stored ciphertext decrypts exactly to the given
phone, yet `markAsSent` with a fresh nonce (9, distinct from the stored 3)
updates zero rows and leaves the record's status `new`. -/
theorem markAsSent_fresh_ciphertext_matches_nothing :
    exStore.records.map (fun r => decryptE exKey r.encrypted_phone)
      = [some exPhone] ∧
    exStore.records.map (fun r => r.status) = ["new"] ∧
    (markAsSent exKey exStore 9 "s1" exPhone).2 = 0 ∧
    (markAsSent exKey exStore 9 "s1" exPhone).1 = exStore ∧
    encryptE exKey 9 exPhone ≠ encryptE exKey 3 exPhone := by
  refine ⟨?_, rfl, rfl, rfl, ?_⟩
  · simp [exStore, decryptE_encryptE]
  · intro h
    exact absurd (congrArg Envelope.iv h) (by decide)

/-! ## C8 — capture without a live session -/

/-- C8 counterexample: with an empty `capture_sessions` table (no live
CaptureSession exists for `ghost`), `captureData` does not fail with
`SessionNotFound`: it succeeds and appends a CapturedRecord. -/
theorem capture_without_session_appends_record :
    emptyStore.sessions = [] ∧
    (captureData exKey emptyStore 0 1 "ghost" exPhone exCode 5).records.length = 1 ∧
    (captureData exKey emptyStore 0 1 "ghost" exPhone exCode 5).records.map
      (fun r => r.session_id) = ["ghost"] := by
  exact ⟨rfl, rfl, rfl⟩

/-- C8 amended: `captureData` never checks the session table — it appends a
`new` record for the given session id unconditionally and leaves the
session table unchanged; however, records whose session id has no live
owning CaptureSession are invisible to `getSessionData`, whose join
requires one. -/
theorem capture_appends_unconditionally_orphans_invisible :
    (∀ (key : Nat) (st : CaptureStore) (iv1 iv2 : Nat) (sid : String)
       (p c : List Nat) (now : Nat),
      (captureData key st iv1 iv2 sid p c now).sessions = st.sessions ∧
      ∃ r, (captureData key st iv1 iv2 sid p c now).records = st.records ++ [r] ∧
        r.session_id = sid ∧ r.status = "new") ∧
    (∀ (key : Nat) (st : CaptureStore) (sid user : String) (now : Nat),
      liveB st sid user now = false →
      getSessionData key st sid user now = .ok []) := by
  constructor
  · intro key st iv1 iv2 sid p c now
    exact ⟨rfl, _, rfl, rfl, rfl⟩
  · intro key st sid user now h
    have hrows : matchedRows st sid user now = [] := by
      simp [matchedRows, h]
    simp [getSessionData, hrows, decryptRows]

/-- C8 amended, witness: a concrete store whose only session belongs to a
different id is dead for `ghost`, and the read returns the empty list. -/
theorem capture_appends_unconditionally_orphans_invisible_w :
    getSessionData exKey exStore "ghost" "demo.admin" 5 = .ok [] :=
  capture_appends_unconditionally_orphans_invisible.2 exKey exStore
    "ghost" "demo.admin" 5 (by decide)

/-! ## C9 — credential validator decoy hashing -/

/-- C9 counterexample: for an unknown username the validator returns `null`
having performed zero bcrypt comparison passes, while the wrong-password
path for a known username performs one — the two paths do not perform the
same hashing work. -/
theorem unknown_username_skips_hashing_pass :
    validateMOCredentials (fun _ _ => false) "ghost.user" "aPassword123"
      = (none, 0) ∧
    validateMOCredentials (fun _ _ => false) "demo.admin" "wrongPassword1"
      = (none, 1) := by
  exact ⟨rfl, rfl⟩

/-- C9 amended: when no stored credential exists for the username, the
validator returns `None` immediately with no hashing pass; a hashing pass
is performed exactly when the username exists, so the unknown-username and
wrong-password paths differ in hashing work. -/
theorem hashing_work_differs_by_username_existence :
    (∀ (compare : String → String → Bool) (u p : String),
      MO_USERS.find? (fun x => decide (x.username = u)) = none →
      validateMOCredentials compare u p = (none, 0)) ∧
    (∀ (compare : String → String → Bool) (u p : String) (usr : MOUser),
      MO_USERS.find? (fun x => decide (x.username = u)) = some usr →
      (validateMOCredentials compare u p).2 = 1) := by
  constructor
  · intro compare u p h
    simp [validateMOCredentials, h]
  · intro compare u p usr h
    simp [validateMOCredentials, h]

/-- C9 amended, witness at the concrete usernames of `MO_USERS`. -/
theorem hashing_work_differs_by_username_existence_w :
    validateMOCredentials (fun _ _ => true) "no.such.user" "aPassword123"
      = (none, 0) ∧
    (validateMOCredentials (fun _ _ => false) "demo.operator" "badPassword9").2
      = 1 := by
  constructor
  · exact hashing_work_differs_by_username_existence.1 (fun _ _ => true)
      "no.such.user" "aPassword123" (by decide)
  · exact hashing_work_differs_by_username_existence.2 (fun _ _ => false)
      "demo.operator" "badPassword9"
      { username := "demo.operator", passwordHash := "$2b$10$YourHashedPasswordHere",
        role := "operator", allowedSessions := 3 } (by decide)

/-! ## C2 — purge on session end -/

/-- Express session bound to demo session `d1`, last active at time 1. -/
def c2Session : GuardSession :=
  { moUser := some { username := "demo.admin", role := "admin", sessionStart := 0 },
    demoSessionId := some "d1",
    lastActivity := some 1,
    lastRegenerated := some 1 }

/-- Guard store holding only the session `g1`. -/
def c2Guard : GuardStore := [("g1", c2Session)]

/-- Capture store holding the CaptureSession `d1` and one of its records. -/
def c2Capture : CaptureStore :=
  { sessions := [{ session_id := "d1", mo_username := "demo.admin",
                   created_at := 0, expires_at := 1800000, status := "active" }],
    records := [{ id := 1, session_id := "d1",
                  encrypted_phone := { iv := 0, tag := 0, ct := [] },
                  encrypted_safety_code := { iv := 0, tag := 0, ct := [] },
                  created_at := 0, status := "new" }],
    nextId := 2 }

/-- C2 counterexample: a guarded call at time 1800002 (idle 1800001 ms,
beyond the 30-minute threshold) ends session `g1` by idle expiry and
reports `SessionExpired`, yet the CapturedRecord and the CaptureSession of
its bound id `d1` are still in the capture store: `requireAuth` destroys
only the express session and never notifies the capture store. -/
theorem idle_expiry_reports_expired_without_purging :
    (logoutRoute c2Capture c2Guard [] "g1" 1800002 "g2").resp = .sessionExpired ∧
    (logoutRoute c2Capture c2Guard [] "g1" 1800002 "g2").capture = c2Capture ∧
    c2Session.demoSessionId = some "d1" ∧
    c2Capture.records.map (fun r => r.session_id) = ["d1"] ∧
    c2Capture.sessions.map (fun cs => cs.session_id) = ["d1"] := by
  exact ⟨rfl, rfl, rfl, rfl, rfl⟩

/-- C2 amended: ending a session by logout purges all CapturedRecords and
the CaptureSession of the bound demo session id before success is
reported; ending by idle expiry reports `SessionExpired` with the capture
store untouched. -/
theorem logout_purges_capture_store_before_success
    (cs : CaptureStore) (gs : GuardStore) (act : ActiveMap)
    (sid fresh : String) (now : Nat) (s : GuardSession) (d : String)
    (hres : (requireAuth gs sid now fresh).res = .proceed)
    (hs : slookup (requireAuth gs sid now fresh).store
      (requireAuth gs sid now fresh).sid = some s)
    (hd : s.demoSessionId = some d) :
    (logoutRoute cs gs act sid now fresh).resp = .success ∧
    (logoutRoute cs gs act sid now fresh).capture = endSession cs d ∧
    (∀ r ∈ (logoutRoute cs gs act sid now fresh).capture.records,
      r.session_id ≠ d) ∧
    (∀ c ∈ (logoutRoute cs gs act sid now fresh).capture.sessions,
      c.session_id ≠ d) ∧
    (∀ (cs2 : CaptureStore) (gs2 : GuardStore) (act2 : ActiveMap)
       (sid2 : String) (now2 : Nat) (f2 : String),
      (logoutRoute cs2 gs2 act2 sid2 now2 f2).resp = .sessionExpired →
      (logoutRoute cs2 gs2 act2 sid2 now2 f2).capture = cs2) := by
  have hmain : logoutRoute cs gs act sid now fresh =
      { resp := .success, capture := endSession cs d,
        guard := sremove (requireAuth gs sid now fresh).store
          (requireAuth gs sid now fresh).sid,
        act := aremove act (requireAuth gs sid now fresh).sid } := by
    simp only [logoutRoute, hres, hs, hd]
  refine ⟨by rw [hmain], by rw [hmain], ?_, ?_, ?_⟩
  · intro r hr
    rw [hmain] at hr
    have h2 := (List.mem_filter.mp hr).2
    exact of_decide_eq_true h2
  · intro c hc
    rw [hmain] at hc
    have h2 := (List.mem_filter.mp hc).2
    exact of_decide_eq_true h2
  · intro cs2 gs2 act2 sid2 now2 f2 h2
    simp only [logoutRoute] at h2 ⊢
    cases hres2 : (requireAuth gs2 sid2 now2 f2).res with
    | authRequired => simp [hres2] at h2
    | sessionExpired => simp [hres2]
    | proceed =>
      simp only [hres2] at h2
      cases hlu : slookup (requireAuth gs2 sid2 now2 f2).store
          (requireAuth gs2 sid2 now2 f2).sid with
      | none => simp [hlu] at h2
      | some s2 => simp [hlu] at h2

/-- C2 amended, witness: logging out `g1` at time 1000 (no expiry, no
regeneration due) reports success with the `d1` rows purged. -/
theorem logout_purges_capture_store_before_success_w :
    (logoutRoute c2Capture c2Guard [] "g1" 1000 "g2").resp = .success ∧
    (logoutRoute c2Capture c2Guard [] "g1" 1000 "g2").capture
      = endSession c2Capture "d1" := by
  have h := logout_purges_capture_store_before_success c2Capture c2Guard []
    "g1" "g2" 1000 { c2Session with lastActivity := some 1000 } "d1"
    (by decide) (by decide) rfl
  exact ⟨h.1, h.2.1⟩

/-! ## C3 — concurrent-session admission -/

/-- An `activeSessions` map already holding three entries of
`demo.operator` — its `allowedSessions` bound. -/
def c3Act : ActiveMap :=
  [ ("sA", { username := "demo.operator", sessionId := "sA", startedAt := 0 }),
    ("sB", { username := "demo.operator", sessionId := "sB", startedAt := 0 }),
    ("sC", { username := "demo.operator", sessionId := "sC", startedAt := 0 }) ]

/-- The pre-auth express session a login request arrives with. -/
def c3Guard : GuardStore :=
  [("pre", { moUser := none, demoSessionId := none,
             lastActivity := none, lastRegenerated := none })]

/-- C3: the claim fails on the code. `checkConcurrentSessions` exists in
`auth.js` but is mounted on no route: the login chain is
`rateLimiter.login, loginValidation, handler`. With `demo.operator`
(`allowedSessions = 3`) already holding three tracked active sessions, a
fourth login with valid credentials succeeds — it is not denied — and no
`ActiveSessionEntry` is registered (the map is untouched). Moreover no
login whatsoever can produce the `MAX_SESSIONS` denial. -/
theorem fourth_login_admitted_without_admission_check :
    (MO_USERS.find? (fun u => decide (u.username = "demo.operator"))).map
      (fun u => u.allowedSessions) = some 3 ∧
    (c3Act.filter (fun p => decide (p.2.username = "demo.operator"))).length = 3 ∧
    (loginRoute (fun _ _ => true) c3Guard emptyStore c3Act "pre" "f1"
      "demo.operator" "ValidPass123" 1000).resp
      = .success "demo.operator" "operator" ∧
    (loginRoute (fun _ _ => true) c3Guard emptyStore c3Act "pre" "f1"
      "demo.operator" "ValidPass123" 1000).act = c3Act ∧
    (∀ (compare : String → String → Bool) (gs : GuardStore) (cs : CaptureStore)
       (act : ActiveMap) (sid f u p : String) (now : Nat),
      (loginRoute compare gs cs act sid f u p now).resp ≠ .maxSessions) := by
  refine ⟨rfl, rfl, rfl, rfl, ?_⟩
  intro compare gs cs act sid f u p now
  unfold loginRoute
  cases hv : (validateMOCredentials compare u p).1 with
  | none => simp
  | some usr =>
    cases hc : createSession cs f u now with
    | error e => simp
    | ok cs1 => simp

/-! ## C4 — idle expiry -/

/-- C4: a session whose (genuine, nonzero) `lastActivity` lies more than 30
minutes in the past fails its next guarded request with `SessionExpired`;
the guard destroys the session, so the identifier is absent from the
store, any guarded request presenting it fails (`AUTH_REQUIRED`), and no
guarded request on any identifier can bring it back as long as freshly
allocated identifiers never collide with it. -/
theorem idle_timeout_expires_and_invalidates
    (st : GuardStore) (sid fresh : String) (now la : Nat) (s : GuardSession)
    (hs : slookup st sid = some s) (hmo : s.moUser ≠ none)
    (hla : s.lastActivity = some la) (hla0 : la ≠ 0)
    (hidle : MAX_IDLE < now - la) :
    (requireAuth st sid now fresh).res = .sessionExpired ∧
    (requireAuth st sid now fresh).store = sremove st sid ∧
    slookup (requireAuth st sid now fresh).store sid = none ∧
    (∀ (t : GuardStore) (now2 : Nat) (f2 : String), slookup t sid = none →
      (requireAuth t sid now2 f2).res = .authRequired) ∧
    (∀ (t : GuardStore) (sid2 : String) (now2 : Nat) (f2 : String),
      slookup t sid = none → f2 ≠ sid →
      slookup (requireAuth t sid2 now2 f2).store sid = none) := by
  have hmoB : s.moUser.isNone = false := by
    cases hx : s.moUser with
    | none => exact absurd hx hmo
    | some v => rfl
  have hcond : (truthyN s.lastActivity
      && decide (MAX_IDLE < now - s.lastActivity.getD 0)) = true := by
    rw [hla]
    simp [truthyN, hla0, hidle]
  have hred : requireAuth st sid now fresh =
      { res := .sessionExpired, store := sremove st sid, sid := sid } := by
    simp only [requireAuth, hs, hmoB, Bool.false_eq_true, if_false, hcond, if_true]
  refine ⟨by rw [hred], by rw [hred], ?_, ?_, ?_⟩
  · rw [hred, slookup_sremove]
    simp
  · intro t now2 f2 h
    rw [requireAuth_absent t sid now2 f2 h]
  · intro t sid2 now2 f2 h hf
    exact requireAuth_preserves_absent t sid sid2 now2 f2 h hf

/-- C4 witness: session `w4` last active at 5 ms, guarded at 1800006 ms
(idle 1800001 ms). -/
theorem idle_timeout_expires_and_invalidates_w :
    (requireAuth
      [("w4", { moUser := some { username := "demo.admin", role := "admin",
                                 sessionStart := 0 },
                demoSessionId := none, lastActivity := some 5,
                lastRegenerated := some 5 })]
      "w4" 1800006 "w4f").res = .sessionExpired ∧
    slookup (requireAuth
      [("w4", { moUser := some { username := "demo.admin", role := "admin",
                                 sessionStart := 0 },
                demoSessionId := none, lastActivity := some 5,
                lastRegenerated := some 5 })]
      "w4" 1800006 "w4f").store "w4" = none := by
  have h := idle_timeout_expires_and_invalidates
    [("w4", { moUser := some { username := "demo.admin", role := "admin",
                               sessionStart := 0 },
              demoSessionId := none, lastActivity := some 5,
              lastRegenerated := some 5 })]
    "w4" "w4f" 1800006 5
    { moUser := some { username := "demo.admin", role := "admin",
                       sessionStart := 0 },
      demoSessionId := none, lastActivity := some 5, lastRegenerated := some 5 }
    rfl (by decide) rfl (by decide) (by decide)
  exact ⟨h.1, h.2.2.1⟩

/-! ## C5 — identifier regeneration -/

/-- C5: when more than 15 minutes have passed since `lastRegenerated` (and
the idle threshold is not exceeded), the next guarded call proceeds under
a freshly allocated identifier carrying the same claims with
`lastRegenerated = now`; the old identifier is no longer in the store, so
any subsequent request presenting it fails, and no identifier other than
the two involved changes its binding — the old and new identifier are
never simultaneously valid. -/
theorem regeneration_due_swaps_identifier
    (st : GuardStore) (sid fresh : String) (now lr : Nat) (s : GuardSession)
    (hs : slookup st sid = some s) (hmo : s.moUser ≠ none)
    (hidle : ∀ la, s.lastActivity = some la → now - la ≤ MAX_IDLE)
    (hlr : s.lastRegenerated = some lr) (hdue : REGEN_MS < now - lr)
    (hf : fresh ≠ sid) :
    (requireAuth st sid now fresh).res = .proceed ∧
    (requireAuth st sid now fresh).sid = fresh ∧
    slookup (requireAuth st sid now fresh).store fresh =
      some { s with lastActivity := some now, lastRegenerated := some now } ∧
    slookup (requireAuth st sid now fresh).store sid = none ∧
    (∀ (now2 : Nat) (f2 : String),
      (requireAuth (requireAuth st sid now fresh).store sid now2 f2).res
        = .authRequired) ∧
    (∀ k : String, k ≠ fresh → k ≠ sid →
      slookup (requireAuth st sid now fresh).store k = slookup st k) := by
  have hmoB : s.moUser.isNone = false := by
    cases hx : s.moUser with
    | none => exact absurd hx hmo
    | some v => rfl
  have hidleB : (truthyN s.lastActivity
      && decide (MAX_IDLE < now - s.lastActivity.getD 0)) = false := by
    cases hx : s.lastActivity with
    | none => simp [truthyN]
    | some la =>
      have h1 := hidle la hx
      have h2 : ¬ MAX_IDLE < now - la := Nat.not_lt.mpr h1
      simp [truthyN, h2]
  have hrotB : (!truthyN s.lastRegenerated
      || decide (REGEN_MS < now - s.lastRegenerated.getD 0)) = true := by
    rw [hlr]
    simp [hdue]
  have hred : requireAuth st sid now fresh =
      { res := .proceed,
        store := sinsert (sremove st sid) fresh
          { s with lastActivity := some now, lastRegenerated := some now },
        sid := fresh } := by
    simp only [requireAuth, hs, hmoB, Bool.false_eq_true, if_false,
      hidleB, hrotB, if_true]
  have habsent : slookup (requireAuth st sid now fresh).store sid = none := by
    rw [hred]
    simp only [GuardOut.store]
    rw [slookup_sinsert, if_neg (fun hx => hf hx.symm), slookup_sremove]
    simp
  refine ⟨by rw [hred], by rw [hred], ?_, habsent, ?_, ?_⟩
  · rw [hred]
    simp only [GuardOut.store]
    rw [slookup_sinsert, if_pos rfl]
  · intro now2 f2
    rw [requireAuth_absent _ sid now2 f2 habsent]
  · intro k hkf hks
    rw [hred]
    simp only [GuardOut.store]
    rw [slookup_sinsert, if_neg hkf, slookup_sremove, if_neg hks]

/-- C5 witness: session `r5` rotated at 100 ms, guarded at 900101 ms
(900001 ms since rotation). -/
theorem regeneration_due_swaps_identifier_w :
    (requireAuth
      [("r5", { moUser := some { username := "demo.admin", role := "admin",
                                 sessionStart := 0 },
                demoSessionId := some "d5", lastActivity := some 100,
                lastRegenerated := some 100 })]
      "r5" 900101 "r5new").sid = "r5new" ∧
    slookup (requireAuth
      [("r5", { moUser := some { username := "demo.admin", role := "admin",
                                 sessionStart := 0 },
                demoSessionId := some "d5", lastActivity := some 100,
                lastRegenerated := some 100 })]
      "r5" 900101 "r5new").store "r5" = none := by
  have h := regeneration_due_swaps_identifier
    [("r5", { moUser := some { username := "demo.admin", role := "admin",
                               sessionStart := 0 },
              demoSessionId := some "d5", lastActivity := some 100,
              lastRegenerated := some 100 })]
    "r5" "r5new" 900101 100
    { moUser := some { username := "demo.admin", role := "admin",
                       sessionStart := 0 },
      demoSessionId := some "d5", lastActivity := some 100,
      lastRegenerated := some 100 }
    rfl (by decide)
    (by intro la hla; cases hla; decide)
    rfl (by decide) (by decide)
  exact ⟨h.2.1, h.2.2.2.1⟩

/-! ## C10 — unset `lastActivity` skips the idle check -/

/-- C10: an authenticated session whose `lastActivity` property is unset is
never idle-expired, however old: the idle check is skipped, the request
proceeds, and the session afterwards carries `lastActivity = now`
(under its effective identifier). Conversely a guarded request returns
`SessionExpired` only when the session's `lastActivity` holds a truthy
timestamp more than 30 minutes before `now`. -/
theorem unset_last_activity_skips_idle_check
    (st : GuardStore) (sid fresh : String) (now : Nat) (s : GuardSession)
    (hs : slookup st sid = some s) (hmo : s.moUser ≠ none)
    (hla : s.lastActivity = none) :
    (requireAuth st sid now fresh).res = .proceed ∧
    (∃ s2 : GuardSession,
      slookup (requireAuth st sid now fresh).store
        (requireAuth st sid now fresh).sid = some s2 ∧
      s2.lastActivity = some now ∧ s2.moUser = s.moUser) ∧
    (∀ (st2 : GuardStore) (sid2 f2 : String) (now2 : Nat) (s3 : GuardSession),
      slookup st2 sid2 = some s3 →
      (requireAuth st2 sid2 now2 f2).res = .sessionExpired →
      ∃ la, s3.lastActivity = some la ∧ la ≠ 0 ∧ MAX_IDLE < now2 - la) := by
  have hmoB : s.moUser.isNone = false := by
    cases hx : s.moUser with
    | none => exact absurd hx hmo
    | some v => rfl
  have hidleB : (truthyN s.lastActivity
      && decide (MAX_IDLE < now - s.lastActivity.getD 0)) = false := by
    rw [hla]
    simp [truthyN]
  refine ⟨?_, ?_, ?_⟩
  · simp only [requireAuth, hs, hmoB, Bool.false_eq_true, if_false, hidleB]
    cases hrot : !truthyN s.lastRegenerated
        || decide (REGEN_MS < now - s.lastRegenerated.getD 0) with
    | true => simp
    | false => simp
  · cases hrot : !truthyN s.lastRegenerated
        || decide (REGEN_MS < now - s.lastRegenerated.getD 0) with
    | true =>
      have hred : requireAuth st sid now fresh =
          { res := .proceed,
            store := sinsert (sremove st sid) fresh
              { s with lastActivity := some now, lastRegenerated := some now },
            sid := fresh } := by
        simp only [requireAuth, hs, hmoB, Bool.false_eq_true, if_false,
          hidleB, hrot, if_true]
      refine ⟨{ s with lastActivity := some now, lastRegenerated := some now },
        ?_, rfl, rfl⟩
      rw [hred]
      simp only [GuardOut.store, GuardOut.sid]
      rw [slookup_sinsert, if_pos rfl]
    | false =>
      have hred : requireAuth st sid now fresh =
          { res := .proceed,
            store := sinsert st sid { s with lastActivity := some now },
            sid := sid } := by
        simp only [requireAuth, hs, hmoB, Bool.false_eq_true, if_false,
          hidleB, hrot]
      refine ⟨{ s with lastActivity := some now }, ?_, rfl, rfl⟩
      rw [hred]
      simp only [GuardOut.store, GuardOut.sid]
      rw [slookup_sinsert, if_pos rfl]
  · intro st2 sid2 f2 now2 s3 hs3 hres
    have hmo3 : s3.moUser.isNone = false := by
      cases hx : s3.moUser with
      | none => simp [requireAuth, hs3, hx] at hres
      | some v => rfl
    simp only [requireAuth, hs3, hmo3, Bool.false_eq_true, if_false] at hres
    cases hcond : truthyN s3.lastActivity
        && decide (MAX_IDLE < now2 - s3.lastActivity.getD 0) with
    | false =>
      rw [hcond] at hres
      simp only [Bool.false_eq_true, if_false] at hres
      cases hrot : !truthyN s3.lastRegenerated
          || decide (REGEN_MS < now2 - s3.lastRegenerated.getD 0) with
      | true => rw [hrot] at hres; simp at hres
      | false => rw [hrot] at hres; simp at hres
    | true =>
      have h1 := (Bool.and_eq_true _ _).mp hcond
      cases hx : s3.lastActivity with
      | none => rw [hx] at h1; simp [truthyN] at h1
      | some la =>
        rw [hx] at h1
        refine ⟨la, rfl, ?_, ?_⟩
        · have := h1.1
          simpa [truthyN] using this
        · have := h1.2
          simpa using this

/-- C10 witness: a session with no `lastActivity` proceeds even at a huge
`now`. -/
theorem unset_last_activity_skips_idle_check_w :
    (requireAuth
      [("w10", { moUser := some { username := "demo.admin", role := "admin",
                                  sessionStart := 0 },
                 demoSessionId := none, lastActivity := none,
                 lastRegenerated := none })]
      "w10" 99999999999 "w10f").res = .proceed := by
  exact (unset_last_activity_skips_idle_check
    [("w10", { moUser := some { username := "demo.admin", role := "admin",
                                sessionStart := 0 },
               demoSessionId := none, lastActivity := none,
               lastRegenerated := none })]
    "w10" "w10f" 99999999999
    { moUser := some { username := "demo.admin", role := "admin",
                       sessionStart := 0 },
      demoSessionId := none, lastActivity := none, lastRegenerated := none }
    rfl (by decide) rfl).1

/-! ## C6 — capture / read round trip -/

/-- C6: for a live CaptureSession owned by `user`, reading after a capture
returns, after the previously stored rows, a record whose decrypted phone
and code are exactly the captured plaintexts; and the modelled decrypt is
a left inverse of encrypt for every plaintext and nonce. -/
theorem capture_then_read_returns_original
    (key : Nat) (st : CaptureStore) (sid user : String)
    (phone code : List Nat) (iv1 iv2 tCap now : Nat) (ds : List DecRow)
    (hlive : liveB st sid user now = true)
    (hprev : decryptRows key (matchedRows st sid user now) = some ds) :
    getSessionData key (captureData key st iv1 iv2 sid phone code tCap)
      sid user now
      = .ok (ds ++ [{ id := st.nextId, phoneNumber := phone,
                      safetyCode := code, createdAt := tCap }]) ∧
    (∀ (m : List Nat) (iv : Nat), decryptE key (encryptE key iv m) = some m) := by
  constructor
  · have hrows : matchedRows (captureData key st iv1 iv2 sid phone code tCap)
        sid user now
        = matchedRows st sid user now ++
          [{ id := st.nextId, session_id := sid,
             encrypted_phone := encryptE key iv1 phone,
             encrypted_safety_code := encryptE key iv2 code,
             created_at := tCap, status := "new" }] := by
      show (st.records ++
          ([{ id := st.nextId, session_id := sid,
              encrypted_phone := encryptE key iv1 phone,
              encrypted_safety_code := encryptE key iv2 code,
              created_at := tCap, status := "new" }] : List CapturedRow)).filter
          (fun r : CapturedRow =>
            decide (r.session_id = sid) && liveB st sid user now &&
            decide (r.status = "new"))
        = _
      rw [List.filter_append]
      simp only [matchedRows]
      congr 1
      simp [hlive]
    simp only [getSessionData, hrows, decryptRows_append, hprev]
    simp [decryptRows, decryptRow, decryptE_encryptE]
  · intro m iv
    exact decryptE_encryptE key iv m

/-- A capture store holding one live session of `demo.operator` and no
records yet. -/
def c6Store : CaptureStore :=
  { sessions := [{ session_id := "s6", mo_username := "demo.operator",
                   created_at := 0, expires_at := 1800000, status := "active" }],
    records := [], nextId := 1 }

/-- C6 witness: capturing the example phone and code into the live session
`s6` and reading back returns exactly the original plaintexts. -/
theorem capture_then_read_returns_original_w :
    getSessionData exKey (captureData exKey c6Store 7 8 "s6" exPhone exCode 5)
      "s6" "demo.operator" 5
      = .ok [{ id := 1, phoneNumber := exPhone, safetyCode := exCode,
               createdAt := 5 }] := by
  exact (capture_then_read_returns_original exKey c6Store "s6" "demo.operator"
    exPhone exCode 7 8 5 5 [] (by decide) rfl).1

/-! ## C7 — integrity failure aborts the whole read -/

/-- C7: if any matched row of the session fails decryption or tag
verification, the whole read fails with `IntegrityFailure` and no records
are returned; moreover replacing the stored tag by any other value, or any
single position of the stored ciphertext by any other byte, makes
decryption of that envelope fail — altered plaintext is never returned. -/
theorem integrity_failure_aborts_whole_read :
    (∀ (key : Nat) (st : CaptureStore) (sid user : String) (now : Nat)
       (r : CapturedRow), r ∈ matchedRows st sid user now →
      decryptRow key r = none →
      getSessionData key st sid user now = .error .integrityFailure) ∧
    (∀ (key iv : Nat) (m : List Nat) (t2 : Nat),
      t2 ≠ (encryptE key iv m).tag →
      decryptE key { iv := iv, tag := t2, ct := (encryptE key iv m).ct } = none) ∧
    (∀ (key iv : Nat) (m : List Nat) (i v : Nat)
       (h : i < (encryptE key iv m).ct.length),
      v ≠ (encryptE key iv m).ct.get ⟨i, h⟩ →
      decryptE key { iv := iv, tag := (encryptE key iv m).tag,
                     ct := (encryptE key iv m).ct.set i v } = none) := by
  refine ⟨?_, ?_, ?_⟩
  · intro key st sid user now r hmem hnone
    have h1 := decryptRows_none_of_mem key hmem hnone
    simp [getSessionData, h1]
  · intro key iv m t2 ht
    apply decryptE_wrong_tag
    exact ht
  · intro key iv m i v h hv
    apply decryptE_wrong_tag
    show tagOf key iv ((encryptE key iv m).ct)
      ≠ tagOf key iv ((encryptE key iv m).ct.set i v)
    have hb := base256_foldl_set_ne ((encryptE key iv m).ct) i v 1 h hv
    simp only [tagOf, base256]
    omega

/-- A capture store whose one matched row carries an undecryptable phone
envelope (its tag does not verify). -/
def c7Store : CaptureStore :=
  { sessions := [{ session_id := "s7", mo_username := "demo.admin",
                   created_at := 0, expires_at := 1800000, status := "active" }],
    records := [{ id := 1, session_id := "s7",
                  encrypted_phone := { iv := 0, tag := 0, ct := [] },
                  encrypted_safety_code := { iv := 0, tag := 0, ct := [] },
                  created_at := 0, status := "new" }],
    nextId := 2 }

/-- C7 witness: the corrupted row aborts the whole read with
`IntegrityFailure`, and both a replaced tag and a flipped ciphertext byte
are rejected by decryption. -/
theorem integrity_failure_aborts_whole_read_w :
    getSessionData exKey c7Store "s7" "demo.admin" 5
      = .error .integrityFailure ∧
    decryptE exKey { iv := 5, tag := 999, ct := (encryptE exKey 5 exPhone).ct }
      = none ∧
    decryptE exKey { iv := 5, tag := (encryptE exKey 5 exPhone).tag,
                     ct := (encryptE exKey 5 exPhone).ct.set 0 0 } = none := by
  refine ⟨?_, ?_, ?_⟩
  · exact integrity_failure_aborts_whole_read.1 exKey c7Store "s7" "demo.admin" 5
      { id := 1, session_id := "s7",
        encrypted_phone := { iv := 0, tag := 0, ct := [] },
        encrypted_safety_code := { iv := 0, tag := 0, ct := [] },
        created_at := 0, status := "new" }
      (by decide) (by decide)
  · exact integrity_failure_aborts_whole_read.2.1 exKey 5 exPhone 999 (by decide)
  · exact integrity_failure_aborts_whole_read.2.2 exKey 5 exPhone 0 0
      (by decide) (by decide)
